import Mathlib

/-
Shallow embedding of the gochat backend (src/types.go and the Postgres
store file).  Go structs become Lean structures, the database becomes an
explicit `DB` value threaded through every operation, and each HTTP
handler becomes a pure function from the pre-state, the authenticated
context user and the decoded request to the post-state and the written
response.  External collaborators (bcrypt, the jwt library) are modelled
by deterministic stand-ins that expose exactly the behaviour the
handlers rely on.
-/

namespace GoChat

/-- AuthorJSON from src/types.go: minimal `{id, username}` member record. -/
structure AuthorJSON where
  Id : Int
  Username : String
  deriving Repr, DecidableEq

/-- MessageJSON from src/types.go. -/
structure MessageJSON where
  ChatId : Int
  Text : String
  Author : AuthorJSON
  deriving Repr, DecidableEq

/-- User from src/types.go; also the shape of a row of the `users` table
(id, username, email, password, chats int-array). -/
structure User where
  Id : Int
  Username : String
  Email : String
  Password : String
  Chats : List Int
  deriving Repr, DecidableEq

/-- Chat from src/types.go: the in-memory record handlers work with;
`Users` is the reconstructed `{id, username}` list. -/
structure Chat where
  Id : Int
  Password : String
  Messages : List MessageJSON
  Users : List AuthorJSON
  deriving Repr, DecidableEq

/-- ChatJSON from src/types.go (the response projection of a Chat). -/
structure ChatJSON where
  Id : Int
  Messages : List MessageJSON
  Users : List AuthorJSON
  deriving Repr, DecidableEq

/-- Chat.ToJSON from src/types.go. -/
def Chat.ToJSON (c : Chat) : ChatJSON :=
  { Id := c.Id, Messages := c.Messages, Users := c.Users }

/-- Model of the external bcrypt library's GenerateFromPassword: a
deterministic one-way tag.  The handlers only rely on verification
succeeding exactly on the hashed plaintext, which this model gives. -/
def bcryptHash (pw : String) : String := "bcrypt$" ++ pw

/-- Model of the external bcrypt library's CompareHashAndPassword,
returned as the boolean the source derives from `err == nil`. -/
def bcryptVerify (hash pw : String) : Bool := hash == bcryptHash pw

/-- User.ValidatePassword from src/types.go. -/
def User.ValidatePassword (u : User) (pw : String) : Bool :=
  bcryptVerify u.Password pw

/-- Chat.ValidatePassword from src/types.go. -/
def Chat.ValidatePassword (c : Chat) (pw : String) : Bool :=
  bcryptVerify c.Password pw

/-- Claims of the token created by createJWT in src/types.go. -/
structure JWTClaims where
  expiresAt : Int
  userId : Int
  deriving Repr, DecidableEq

/-- Model of a signed jwt: algorithm, claims, and a signature determined
by the process-wide secret and the claims. -/
structure SignedToken where
  alg : String
  claims : JWTClaims
  sig : String
  deriving Repr, DecidableEq

/-- Model of the external jwt library's HMAC-SHA256 signing step:
deterministic in the secret and the payload. -/
def hmacSHA256 (secret payload : String) : String :=
  "hmac(" ++ secret ++ "|" ++ payload ++ ")"

/-- createJWT from src/types.go: claims are `{expiresAt: 15000, userId: id}`,
signed HS256 with the secret read from the environment (modelled as the
explicit `secret` argument).  The source takes no clock input. -/
def createJWT (secret : String) (id : Int) : SignedToken :=
  let claims : JWTClaims := { expiresAt := 15000, userId := id }
  { alg := "HS256"
    claims := claims
    sig := hmacSHA256 secret (toString claims.userId ++ "," ++ toString claims.expiresAt) }

/-- UserJSON from src/types.go (the register/login response body); the
token field carries the modelled signed token. -/
structure UserJSON where
  Id : Int
  Username : String
  Email : String
  Chats : List ChatJSON
  Token : SignedToken
  deriving Repr, DecidableEq

/-- LoginRequest from src/types.go. -/
structure LoginRequest where
  Email : String
  Password : String
  deriving Repr, DecidableEq

/-- RegisterRequest from src/types.go. -/
structure RegisterRequest where
  Username : String
  Email : String
  Password : String
  deriving Repr, DecidableEq

/-- CreateChatRequest from src/types.go. -/
structure CreateChatRequest where
  Password : String
  deriving Repr, DecidableEq

/-- JoinChatRequest from src/types.go. -/
structure JoinChatRequest where
  Id : Int
  Password : String
  deriving Repr, DecidableEq

/-- A row of the `chat` table (id, password, messages json, users
int-array) as created by createChatTable in the store file. -/
structure ChatRow where
  id : Int
  password : String
  messages : List MessageJSON
  users : List Int
  deriving Repr, DecidableEq

/-- The relational store: the two tables plus the serial counters that
assign fresh primary keys. -/
structure DB where
  users : List User
  chats : List ChatRow
  nextUserId : Int
  nextChatId : Int
  deriving Repr, DecidableEq

/-- PostgresStore.GetUserById: `select * from users where id = $1 limit 1`,
first matching row in table order. -/
def GetUserById (db : DB) (id : Int) : Option User :=
  db.users.find? (fun u => u.Id == id)

/-- PostgresStore.GetUserByEmail: `select * from users where email = $1 limit 1`. -/
def GetUserByEmail (db : DB) (email : String) : Option User :=
  db.users.find? (fun u => u.Email == email)

/-- PostgresStore.CreateUser: inserts a row with a fresh serial id and an
empty chats array; the returned User carries `Chats = []` because the
source scans the array column into a discarded buffer. -/
def CreateUser (db : DB) (username email password : String) : DB × User :=
  let row : User :=
    { Id := db.nextUserId, Username := username, Email := email
      Password := password, Chats := [] }
  ({ db with users := db.users ++ [row], nextUserId := db.nextUserId + 1 }, row)

/-- PostgresStore.UpdateUser: `update users set chats=$1 where id=$2` —
only the chats column is written. -/
def UpdateUser (db : DB) (u : User) : DB :=
  { db with users := db.users.map (fun row =>
      if row.Id == u.Id then { row with Chats := u.Chats } else row) }

/-- PostgresStore.GetAuthors: `select username from users where id = any($1)`.
The query result is modelled as the matching rows in table order (one
admissible order for an unordered SQL result).  The source pairs the
i-th result row's username with `arr[i]` positionally; the `arr[i]`
index is total in Go whenever table ids are unique (then at most
`arr.length` rows match), which the zip below mirrors. -/
def GetAuthors (db : DB) (arr : List Int) : List AuthorJSON :=
  let rows := db.users.filter (fun u => arr.contains u.Id)
  (arr.zip rows).map (fun p => { Id := p.1, Username := p.2.Username })

/-- The chat-table row, if any, with the given id (the `where id = $1`
lookup shared by GetChatById and the update statements). -/
def findChatRow (db : DB) (id : Int) : Option ChatRow :=
  db.chats.find? (fun c => c.id == id)

/-- PostgresStore.GetChatById: finds the row and reconstructs the member
list via GetAuthors.  The returned Messages list is empty because the
source unmarshals the json column into a local slice after the Chat
record has already captured the original empty slice. -/
def GetChatById (db : DB) (id : Int) : Option Chat :=
  (findChatRow db id).map (fun row =>
    { Id := row.id, Password := row.password, Messages := []
      Users := GetAuthors db row.users })

/-- PostgresStore.GetChats: `select * from chat where id = any($1)` in
table order; the source never decodes the scanned messages json, so
every returned chat has an empty Messages list. -/
def GetChats (db : DB) (arr : List Int) : List Chat :=
  (db.chats.filter (fun c => arr.contains c.id)).map (fun row =>
    { Id := row.id, Password := row.password, Messages := []
      Users := GetAuthors db row.users })

/-- PostgresStore.CreateChat: inserts a row with a fresh serial id,
empty messages and users = [creator id]; returns the in-memory Chat the
source builds by hand. -/
def CreateChat (db : DB) (password : String) (user : User) : DB × Chat :=
  let row : ChatRow :=
    { id := db.nextChatId, password := password, messages := [], users := [user.Id] }
  ({ db with chats := db.chats ++ [row], nextChatId := db.nextChatId + 1 },
   { Id := db.nextChatId, Password := password, Messages := []
     Users := [{ Id := user.Id, Username := user.Username }] })

/-- PostgresStore.UpdateChat: `update chat set messages=$1, users=$2 where id=$3`
— the users column is rebuilt from the ids of the in-memory member list;
the password column is untouched. -/
def UpdateChat (db : DB) (c : Chat) : DB :=
  { db with chats := db.chats.map (fun row =>
      if row.id == c.Id then
        { row with messages := c.Messages, users := c.Users.map AuthorJSON.Id }
      else row) }

/-- strconv.Atoi as used by getChatId: optional sign followed by at
least one digit; anything else is a conversion error (`none`).  Go's
64-bit range check is elided: the route ids in scope are small. -/
def atoi? (s : String) : Option Int :=
  let digits (ds : List Char) : Option Nat :=
    if ds.isEmpty then none
    else if ds.all Char.isDigit then
      some (ds.foldl (fun acc c => acc * 10 + (c.toNat - 48)) 0)
    else none
  match s.data with
  | '+' :: ds => (digits ds).map (fun n => (n : Int))
  | '-' :: ds => (digits ds).map (fun n => -(n : Int))
  | ds => (digits ds).map (fun n => (n : Int))

/-- getChatId from src/types.go: the `{chatId}` route variable (absent
modelled as the empty string, as mux yields) run through Atoi. -/
def getChatId (chatIdVar : String) : Option Int := atoi? chatIdVar

/-- What a handler writes back: a json body with its status, the bare
string body LeaveChat writes, an http.Error, or nothing at all (the
implicit 200 with empty body when a handler returns without writing). -/
inductive Response where
  | jsonChat (status : Nat) (chat : ChatJSON)
  | jsonUser (status : Nat) (u : UserJSON)
  | jsonString (status : Nat) (s : String)
  | emptyOk
  | error (status : Nat) (msg : String)
  deriving Repr, DecidableEq

/-- json.Decoder.Decode into a JoinChatRequest: the source ignores the
decode error, so an undecodable body (`none`) leaves the zero value. -/
def decodeJoinChatRequest : Option JoinChatRequest → JoinChatRequest
  | some r => r
  | none => { Id := 0, Password := "" }

/-- Decode for CreateChatRequest, error ignored as in the source. -/
def decodeCreateChatRequest : Option CreateChatRequest → CreateChatRequest
  | some r => r
  | none => { Password := "" }

/-- Decode for RegisterRequest, error ignored as in the source. -/
def decodeRegisterRequest : Option RegisterRequest → RegisterRequest
  | some r => r
  | none => { Username := "", Email := "", Password := "" }

/-- Decode for LoginRequest, error ignored as in the source. -/
def decodeLoginRequest : Option LoginRequest → LoginRequest
  | some r => r
  | none => { Email := "", Password := "" }

/-- handleGetChat from src/types.go: parse the route id, look the chat
up, and serve it only when the id occurs in the context user's Chats;
every failure path writes the same 404. -/
def handleGetChat (db : DB) (user : User) (chatIdVar : String) : Response :=
  match getChatId chatIdVar with
  | none => Response.error 404 "error: page not found"
  | some id =>
    match GetChatById db id with
    | none => Response.error 404 "error: page not found"
    | some chat =>
      if user.Chats.contains id then Response.jsonChat 200 chat.ToJSON
      else Response.error 404 "error: page not found"

/-- handleJoinChat from src/types.go.  Order as in the source: fetch the
chat (404 on failure), check the password (401 on mismatch), return
without writing anything if the user's Chats already holds the id, else
append the member on both sides and persist chat then user. -/
def handleJoinChat (db : DB) (user : User) (body : Option JoinChatRequest) :
    DB × Response :=
  let joinReq := decodeJoinChatRequest body
  match GetChatById db joinReq.Id with
  | none => (db, Response.error 404 "error: page not found")
  | some chat =>
    if !(chat.ValidatePassword joinReq.Password) then
      (db, Response.error 401 "error: not authorized")
    else if user.Chats.contains joinReq.Id then
      (db, Response.emptyOk)
    else
      let chat2 := { chat with Users := chat.Users ++ [{ Id := user.Id, Username := user.Username }] }
      let user2 := { user with Chats := user.Chats ++ [chat.Id] }
      (UpdateUser (UpdateChat db chat2) user2, Response.jsonChat 200 chat2.ToJSON)

/-- The Go loop deleting the first author whose Id equals the leaving
user's Id (append of the two slice halves, then break). -/
def removeFirstAuthor (uid : Int) : List AuthorJSON → List AuthorJSON
  | [] => []
  | a :: rest => if uid == a.Id then rest else a :: removeFirstAuthor uid rest

/-- The Go loop deleting the first occurrence of the chat id in the
user's Chats slice. -/
def removeFirstId (x : Int) : List Int → List Int
  | [] => []
  | y :: rest => if x == y then rest else y :: removeFirstId x rest

/-- handleLeaveChat from src/types.go: parse the route id, fetch the
chat, 404 unless the id occurs in the context user's Chats, else drop
the user from the chat's member list and the id from the user's Chats
and persist chat then user. -/
def handleLeaveChat (db : DB) (user : User) (chatIdVar : String) :
    DB × Response :=
  match getChatId chatIdVar with
  | none => (db, Response.error 404 "error: page not found")
  | some id =>
    match GetChatById db id with
    | none => (db, Response.error 404 "error: page not found")
    | some chat =>
      if !(user.Chats.contains id) then
        (db, Response.error 404 "error: page not found")
      else
        let chat2 := { chat with Users := removeFirstAuthor user.Id chat.Users }
        let user2 := { user with Chats := removeFirstId id user.Chats }
        (UpdateUser (UpdateChat db chat2) user2, Response.jsonString 200 "chat deleted")

/-- handleCreateChat from src/types.go: hash the (possibly zero-valued)
request password, insert the chat with the creator as sole member,
append the fresh id to the creator's Chats and persist the user. -/
def handleCreateChat (db : DB) (user : User) (body : Option CreateChatRequest) :
    DB × Response :=
  let createReq := decodeCreateChatRequest body
  let encPass := bcryptHash createReq.Password
  let created := CreateChat db encPass user
  let user2 := { user with Chats := user.Chats ++ [created.2.Id] }
  (UpdateUser created.1 user2, Response.jsonChat 201 created.2.ToJSON)

/-- handleRegister from src/types.go: length checks on the raw byte
lengths (Go `len`), duplicate-email check, bcrypt hash, insert, token. -/
def handleRegister (secret : String) (db : DB) (body : Option RegisterRequest) :
    DB × Response :=
  let reg := decodeRegisterRequest body
  if reg.Username.utf8ByteSize > 20 || reg.Email.utf8ByteSize > 50 then
    (db, Response.error 400 "error: username can't be longer than 20 characters and email can't be longer than 50 characters")
  else
    match GetUserByEmail db reg.Email with
    | some _ => (db, Response.error 400 "error: user already exists")
    | none =>
      let encPass := bcryptHash reg.Password
      let created := CreateUser db reg.Username reg.Email encPass
      let token := createJWT secret created.2.Id
      (created.1,
       Response.jsonUser 201
         { Id := created.2.Id, Username := created.2.Username
           Email := created.2.Email, Chats := [], Token := token })

/-- handleLogin from src/types.go: find the user by email, verify the
password, issue a token and return the profile with the user's chats. -/
def handleLogin (secret : String) (db : DB) (body : Option LoginRequest) : Response :=
  let login := decodeLoginRequest body
  match GetUserByEmail db login.Email with
  | none => Response.error 400 "error: user not found"
  | some user =>
    if !(user.ValidatePassword login.Password) then
      Response.error 400 "error: invalid password"
    else
      let token := createJWT secret user.Id
      let chats := GetChats db user.Chats
      Response.jsonUser 201
        { Id := user.Id, Username := user.Username, Email := user.Email
          Chats := chats.map Chat.ToJSON, Token := token }

/-- strings.Split(s, " "): split on every space, empty fields kept. -/
def splitSpaceAux : List Char → List Char → List (List Char)
  | [], acc => [acc.reverse]
  | c :: rest, acc =>
    if c = ' ' then acc.reverse :: splitSpaceAux rest []
    else splitSpaceAux rest (c :: acc)

/-- strings.Split on a single space as used by protectMiddleware. -/
def splitSpace (s : String) : List String :=
  (splitSpaceAux s.data []).map (fun cs => String.mk cs)

/-- Outcome of the middleware: a written error, a Go runtime panic from
an out-of-range slice index, or the wrapped handler invoked with the
loaded context user. -/
inductive AuthOutcome where
  | unauthorized (msg : String)
  | notFound (msg : String)
  | indexOutOfRange
  | proceed (user : User)
  deriving Repr, DecidableEq

/-- protectMiddleware from src/types.go.  `validate` collapses
validateJWT, token.Valid and the userId-claim extraction (all external
jwt-library behaviour): it yields the userId claim of a valid token.
The element-1 access of the space-split header is modelled totally, the
`none` branch standing for the index-out-of-range panic in the source. -/
def protectMiddleware (validate : String → Option Int) (db : DB)
    (header : String) : AuthOutcome :=
  if header == "" || !("Bearer".data.isPrefixOf header.data) then
    AuthOutcome.unauthorized "error: not authorized"
  else
    match (splitSpace header)[1]? with
    | none => AuthOutcome.indexOutOfRange
    | some tokenString =>
      match validate tokenString with
      | none => AuthOutcome.unauthorized "error: not authorized"
      | some userId =>
        match GetUserById db userId with
        | none => AuthOutcome.notFound "error: user not found"
        | some user => AuthOutcome.proceed user

end GoChat

namespace GoChat

/-- Bidirectional membership agreement between the stored user row `uid`
and the stored chat row `cid`: both rows exist and the chat id occurs in
the user's Chats exactly when the user id occurs in the chat's users
column. -/
def rowsAgree (db : DB) (uid cid : Int) : Bool :=
  match GetUserById db uid, findChatRow db cid with
  | some u, some c => u.Chats.contains cid == c.users.contains uid
  | _, _ => false

/-- The consistent states of the store: primary keys are unique and
below the serial counters, both membership columns are duplicate-free
and reference existing rows, and the bidirectional membership relation
agrees for every user/chat pair. -/
def WellFormedDB (db : DB) : Prop :=
  (db.users.map User.Id).Nodup ∧
  (db.chats.map ChatRow.id).Nodup ∧
  (∀ u ∈ db.users, u.Id < db.nextUserId) ∧
  (∀ c ∈ db.chats, c.id < db.nextChatId) ∧
  (∀ u ∈ db.users, u.Chats.Nodup ∧ ∀ cid ∈ u.Chats, cid ∈ db.chats.map ChatRow.id) ∧
  (∀ c ∈ db.chats, c.users.Nodup ∧ ∀ uid ∈ c.users, uid ∈ db.users.map User.Id) ∧
  (∀ u ∈ db.users, ∀ c ∈ db.chats, (c.id ∈ u.Chats ↔ u.Id ∈ c.users))

/-- Responses JoinChat writes on success: the chat body with 200, or the
implicit empty 200 of the already-member early return. -/
def isJoinSuccess : Response → Bool
  | Response.emptyOk => true
  | Response.jsonChat status _ => status == 200
  | _ => false

/-- A 200 response that actually carries a chat body. -/
def isChat200 : Response → Bool
  | Response.jsonChat 200 _ => true
  | _ => false

/-- Occurrence counts of the membership pair in the stored rows:
(how often `cid` occurs in user `uid`'s Chats column,
 how often `uid` occurs in chat `cid`'s users column). -/
def memberCounts (db : DB) (uid cid : Int) : Nat × Nat :=
  (((GetUserById db uid).map (fun u => u.Chats.count cid)).getD 0,
   ((findChatRow db cid).map (fun c => c.users.count uid)).getD 0)

/-- A repeated JoinChat, after reloading the context user the way
protectMiddleware does, changes nothing and writes the empty response. -/
def secondJoinNoop (db : DB) (uid : Int) (body : Option JoinChatRequest) : Bool :=
  match GetUserById db uid with
  | none => false
  | some u => decide (handleJoinChat db u body = (db, Response.emptyOk))

/-- The requester is not currently a member of the chat named by the
route variable: malformed id, absent chat, or id not in their Chats. -/
def leaveNotMember (db : DB) (user : User) (chatIdVar : String) : Bool :=
  match getChatId chatIdVar with
  | none => true
  | some id =>
    match findChatRow db id with
    | none => true
    | some _ => !(user.Chats.contains id)

/-- The route variable does not name a chat of the requester's Chats
set (malformed or absent id included). -/
def getChatNotVisible (user : User) (chatIdVar : String) : Bool :=
  match getChatId chatIdVar with
  | none => true
  | some id => !(user.Chats.contains id)

theorem contains_iff (l : List Int) (x : Int) : l.contains x = true ↔ x ∈ l :=
  ⟨fun h => List.elem_iff.mp h, fun h => List.elem_iff.mpr h⟩

theorem find_append_none {α : Type} (p : α → Bool) (l l2 : List α)
    (h : l.find? p = none) : (l ++ l2).find? p = l2.find? p := by
  induction l with
  | nil => rfl
  | cons a as ih =>
    cases hpa : p a with
    | true => rw [List.find?_cons_of_pos _ hpa] at h; exact absurd h (by simp)
    | false =>
      rw [List.find?_cons_of_neg _ (by simp [hpa])] at h
      rw [List.cons_append, List.find?_cons_of_neg _ (by simp [hpa])]
      exact ih h

theorem find_map_pres {α : Type} (f : α → α) (p : α → Bool)
    (hp : ∀ a, p (f a) = p a) (l : List α) :
    (l.map f).find? p = (l.find? p).map f := by
  induction l with
  | nil => rfl
  | cons a as ih =>
    cases hpa : p a with
    | true =>
      rw [List.map_cons, List.find?_cons_of_pos _ (by rw [hp]; exact hpa),
        List.find?_cons_of_pos _ hpa, Option.map_some']
    | false =>
      rw [List.map_cons, List.find?_cons_of_neg _ (by simp [hp, hpa]),
        List.find?_cons_of_neg _ (by simp [hpa]), ih]

theorem GetUserById_UpdateChat (db : DB) (c : Chat) (uid : Int) :
    GetUserById (UpdateChat db c) uid = GetUserById db uid := rfl

theorem findChatRow_UpdateUser (db : DB) (u : User) (cid : Int) :
    findChatRow (UpdateUser db u) cid = findChatRow db cid := rfl

theorem GetUserById_UpdateUser (db : DB) (u : User) (uid : Int) :
    GetUserById (UpdateUser db u) uid =
      (GetUserById db uid).map (fun row =>
        if row.Id == u.Id then { row with Chats := u.Chats } else row) := by
  unfold GetUserById UpdateUser
  exact find_map_pres _ _ (fun a => by cases h : (a.Id == u.Id) <;> simp [h]) _

theorem findChatRow_UpdateChat (db : DB) (c : Chat) (cid : Int) :
    findChatRow (UpdateChat db c) cid =
      (findChatRow db cid).map (fun row =>
        if row.id == c.Id then
          { row with messages := c.Messages, users := c.Users.map AuthorJSON.Id }
        else row) := by
  unfold findChatRow UpdateChat
  exact find_map_pres _ _ (fun a => by cases h : (a.id == c.Id) <;> simp [h]) _

theorem getAuthors_ids (db : DB) (arr : List Int)
    (h1 : arr.Nodup) (h2 : (db.users.map User.Id).Nodup)
    (h3 : ∀ a ∈ arr, a ∈ db.users.map User.Id) :
    (GetAuthors db arr).map AuthorJSON.Id = arr := by
  have hfm : (db.users.map User.Id).filter (fun i => arr.contains i)
      = (db.users.filter (fun u => arr.contains u.Id)).map User.Id := by
    rw [List.filter_map]
    rfl
  have hperm : List.Perm ((db.users.map User.Id).filter (fun i => arr.contains i)) arr := by
    apply (List.perm_ext_iff_of_nodup (h2.filter _) h1).mpr
    intro a
    simp only [List.mem_filter]
    constructor
    · rintro ⟨_, hc⟩
      exact (contains_iff arr a).mp hc
    · intro ha
      exact ⟨h3 a ha, (contains_iff arr a).mpr ha⟩
  have hlen : arr.length ≤ (db.users.filter (fun u => arr.contains u.Id)).length := by
    have := hperm.length_eq
    rw [hfm, List.length_map] at this
    omega
  unfold GetAuthors
  rw [List.map_map]
  have hcomp : (AuthorJSON.Id ∘ fun p : Int × User => { Id := p.1, Username := p.2.Username })
      = Prod.fst := rfl
  rw [hcomp, List.map_fst_zip _ _ hlen]

theorem removeFirstAuthor_map_Id (uid : Int) (l : List AuthorJSON) :
    (removeFirstAuthor uid l).map AuthorJSON.Id
      = removeFirstId uid (l.map AuthorJSON.Id) := by
  induction l with
  | nil => rfl
  | cons a rest ih =>
    unfold removeFirstAuthor removeFirstId
    cases h : (uid == a.Id) with
    | true => simp [h]
    | false => simp [h, ih]

theorem removeFirstId_of_not_mem (x : Int) (l : List Int) (h : x ∉ l) :
    removeFirstId x l = l := by
  induction l with
  | nil => rfl
  | cons y rest ih =>
    have hxy : (x == y) = false := by
      have hne : x ≠ y := fun he => h (he ▸ List.mem_cons_self y rest)
      simp [hne]
    have hrest : removeFirstId x rest = rest :=
      ih (fun hm => h (List.mem_cons_of_mem _ hm))
    unfold removeFirstId
    simp [hxy, hrest]

theorem not_mem_removeFirstId (x : Int) (l : List Int) (h : l.Nodup) :
    x ∉ removeFirstId x l := by
  induction l with
  | nil => simp [removeFirstId]
  | cons y rest ih =>
    rcases List.nodup_cons.mp h with ⟨hy, hrest⟩
    by_cases hx : x = y
    · subst hx
      simpa [removeFirstId] using hy
    · have hxy : (x == y) = false := by simp [hx]
      unfold removeFirstId
      simp only [hxy, Bool.false_eq_true, if_false, List.mem_cons]
      rintro (he | hm)
      · exact hx he
      · exact ih hrest hm

end GoChat

namespace GoChat

theorem contains_append_self (l : List Int) (x : Int) : (l ++ [x]).contains x = true :=
  (contains_iff _ _).mpr (by simp)

theorem contains_eq_false_iff (l : List Int) (x : Int) : l.contains x = false ↔ x ∉ l := by
  constructor
  · intro h hm
    rw [(contains_iff l x).mpr hm] at h
    cases h
  · intro h
    cases hc : l.contains x with
    | false => rfl
    | true => exact absurd ((contains_iff l x).mp hc) h

/-- Claim C8: createJWT produces a signed token whose claims embed the
given user id together with an expiry claim; the embedded expiry claim
is the fixed constant 15000 — identical for every call and every user
id, with no dependence on the time of issuance (the function takes no
clock input at all, mirroring the source). -/
theorem createJWT_constant_expiry (secret : String) (id id2 : Int) :
    (createJWT secret id).claims.userId = id ∧
    (createJWT secret id).claims.expiresAt = 15000 ∧
    (createJWT secret id).claims.expiresAt = (createJWT secret id2).claims.expiresAt ∧
    (createJWT secret id).alg = "HS256" ∧
    (createJWT secret id).sig =
      hmacSHA256 secret (toString id ++ "," ++ toString (15000 : Int)) :=
  ⟨rfl, rfl, rfl, rfl, rfl⟩

/-- Claim C9: the Authorization header "BearerXYZ" begins with "Bearer"
but holds no space, so it passes the prefix check, the space-split of
the header has exactly one element, and the middleware reaches the
element-1 access of that one-element slice — an index-out-of-range
panic in the source — whatever the token validator and the store
contents are, instead of writing the 401 rejection. -/
theorem protectMiddleware_bearer_no_space_panics
    (validate : String → Option Int) (db : DB) :
    ("Bearer".data.isPrefixOf "BearerXYZ".data) = true ∧
    (splitSpace "BearerXYZ").length = 1 ∧
    protectMiddleware validate db "BearerXYZ" = AuthOutcome.indexOutOfRange :=
  ⟨by decide, by decide, rfl⟩

/-- Claim C3: when the stored chat exists and the supplied plaintext
does not verify against its stored hash, JoinChat answers 401 and
returns the store exactly as it was — the pre-state is the post-state,
so neither the chat row nor the user row is written. -/
theorem joinChat_wrong_password_no_write (db : DB) (user : User)
    (body : Option JoinChatRequest) (chat : Chat)
    (hchat : GetChatById db (decodeJoinChatRequest body).Id = some chat)
    (hpw : chat.ValidatePassword (decodeJoinChatRequest body).Password = false) :
    handleJoinChat db user body = (db, Response.error 401 "error: not authorized") := by
  simp only [handleJoinChat]
  rw [hchat]
  simp [hpw]

def dbC3 : DB :=
  { users := [{ Id := 1, Username := "ann", Email := "a@x.com"
                Password := bcryptHash "upw", Chats := [] }]
    chats := [{ id := 1, password := bcryptHash "pw", messages := [], users := [] }]
    nextUserId := 2, nextChatId := 2 }

def userC3 : User :=
  { Id := 1, Username := "ann", Email := "a@x.com"
    Password := bcryptHash "upw", Chats := [] }

def chatC3 : Chat :=
  { Id := 1, Password := bcryptHash "pw", Messages := [], Users := [] }

theorem joinChat_wrong_password_no_write_witness :
    GetChatById dbC3 (decodeJoinChatRequest (some { Id := 1, Password := "bad" })).Id
      = some chatC3 ∧
    chatC3.ValidatePassword (decodeJoinChatRequest (some { Id := 1, Password := "bad" })).Password
      = false ∧
    handleJoinChat dbC3 userC3 (some { Id := 1, Password := "bad" })
      = (dbC3, Response.error 401 "error: not authorized") :=
  ⟨by decide, by decide,
   joinChat_wrong_password_no_write dbC3 userC3 (some { Id := 1, Password := "bad" })
     chatC3 (by decide) (by decide)⟩

def dbC7 : DB :=
  { users := [{ Id := 1, Username := "alice", Email := "a@x.com", Password := "h1", Chats := [] },
              { Id := 2, Username := "bob", Email := "b@x.com", Password := "h2", Chats := [] }]
    chats := [], nextUserId := 3, nextChatId := 1 }

/-- Claim C7 (failing evaluation): with users (1, alice) and (2, bob)
stored in this table order, GetAuthors pairs the input ids positionally
with the rows the set-based query returns in table order: the request
[2, 1] attaches alice's username to id 2 and bob's to id 1 instead of
each id's own username, and the request [1, 3] (id 3 unknown) yields a
single entry, so neither the pairing nor the input length is
preserved. -/
theorem getAuthors_positional_mismatch :
    GetAuthors dbC7 [2, 1] =
      [{ Id := 2, Username := "alice" }, { Id := 1, Username := "bob" }] ∧
    (GetAuthors dbC7 [2, 1]).map AuthorJSON.Username ≠ ["bob", "alice"] ∧
    (GetAuthors dbC7 [1, 3]).length = 1 :=
  ⟨by decide, by decide, by decide⟩

/-- Claim C10: a request body that fails JSON decoding leaves the
zero-valued request record.  Register with an undecodable body (when no
user with the empty email exists) therefore succeeds with 201, storing
a user row with empty username, empty email and a hash of the empty
password; and JoinChat with an undecodable body behaves exactly as a
join of chat id 0 with the empty password. -/
theorem undecodable_body_zero_values (secret : String) (db : DB) (user : User)
    (hFresh : GetUserByEmail db "" = none) :
    (handleRegister secret db none).2 =
      Response.jsonUser 201
        { Id := db.nextUserId, Username := "", Email := "", Chats := []
          Token := createJWT secret db.nextUserId } ∧
    (handleRegister secret db none).1.users =
      db.users ++ [{ Id := db.nextUserId, Username := "", Email := ""
                     Password := bcryptHash "", Chats := [] }] ∧
    handleJoinChat db user none = handleJoinChat db user (some { Id := 0, Password := "" }) := by
  refine ⟨?_, ?_, rfl⟩ <;>
  · simp only [handleRegister, decodeRegisterRequest]
    rw [if_neg (by decide)]
    rw [hFresh]
    rfl

def dbC10 : DB := { users := [], chats := [], nextUserId := 1, nextChatId := 1 }

def userC10 : User :=
  { Id := 7, Username := "u", Email := "u@x.com", Password := "h", Chats := [] }

theorem undecodable_body_zero_values_witness :
    GetUserByEmail dbC10 "" = none ∧
    ((handleRegister "s" dbC10 none).2 =
      Response.jsonUser 201
        { Id := dbC10.nextUserId, Username := "", Email := "", Chats := []
          Token := createJWT "s" dbC10.nextUserId } ∧
    (handleRegister "s" dbC10 none).1.users =
      dbC10.users ++ [{ Id := dbC10.nextUserId, Username := "", Email := ""
                        Password := bcryptHash "", Chats := [] }] ∧
    handleJoinChat dbC10 userC10 none
      = handleJoinChat dbC10 userC10 (some { Id := 0, Password := "" })) :=
  ⟨by decide, undecodable_body_zero_values "s" dbC10 userC10 (by decide)⟩

/-- Claim C2: whenever the route id is not a member entry of the
requester's Chats — the id is non-numeric or absent, or it parses but
does not occur in requester.Chats, whether or not such a chat exists —
GetChat answers exactly the 404 page-not-found response; and that is
precisely the response produced when the chat row does not exist, so a
chat that exists but is not joined is indistinguishable from a missing
one.  Since every non-member outcome is that 404, the chat body is
returned only to members. -/
theorem getChat_nonmember_indistinguishable (db : DB) (user : User)
    (chatIdVar : String) (id : Int) :
    (getChatNotVisible user chatIdVar = true →
      handleGetChat db user chatIdVar = Response.error 404 "error: page not found") ∧
    (getChatId chatIdVar = some id → findChatRow db id = none →
      handleGetChat db user chatIdVar = Response.error 404 "error: page not found") := by
  constructor
  · intro h
    unfold getChatNotVisible at h
    cases hid : getChatId chatIdVar with
    | none => simp [handleGetChat, hid]
    | some i =>
      rw [hid] at h
      have h2 : (!(user.Chats.contains i)) = true := h
      have hcontains : user.Chats.contains i = false := by
        cases hcc : user.Chats.contains i with
        | false => rfl
        | true => rw [hcc] at h2; exact absurd h2 (by decide)
      have hnm : i ∉ user.Chats := (contains_eq_false_iff _ _).mp hcontains
      cases hc : GetChatById db i with
      | none => simp [handleGetChat, hid, hc]
      | some chat => simp [handleGetChat, hid, hc, hnm]
  · intro h1 h2
    simp [handleGetChat, h1, GetChatById, h2]

def dbC2 : DB :=
  { users := [{ Id := 1, Username := "ann", Email := "a@x.com", Password := "h", Chats := [] }]
    chats := [{ id := 1, password := "hp", messages := [], users := [] }]
    nextUserId := 2, nextChatId := 2 }

def userC2 : User :=
  { Id := 1, Username := "ann", Email := "a@x.com", Password := "h", Chats := [] }

theorem getChat_nonmember_indistinguishable_witness :
    (getChatNotVisible userC2 "1" = true ∧
      handleGetChat dbC2 userC2 "1" = Response.error 404 "error: page not found") ∧
    (getChatId "2" = some 2 ∧ findChatRow dbC2 2 = none ∧
      handleGetChat dbC2 userC2 "2" = Response.error 404 "error: page not found") :=
  ⟨⟨by decide,
    (getChat_nonmember_indistinguishable dbC2 userC2 "1" 1).1 (by decide)⟩,
   ⟨by decide, by decide,
    (getChat_nonmember_indistinguishable dbC2 userC2 "2" 2).2 (by decide) (by decide)⟩⟩

end GoChat

namespace GoChat

theorem getChats_nil (db : DB) : GetChats db [] = [] := by
  unfold GetChats
  have h : db.chats.filter (fun c => List.contains [] c.id) = [] :=
    List.filter_eq_nil_iff.mpr (fun a _ h => nomatch h)
  rw [h]
  rfl

/-- Claim C6: for every username of at most 20 bytes, email of at most
50 bytes (Go `len` measures bytes) and password, with the email not yet
registered, Register succeeds with 201, and Login against the resulting
store with the same email and password succeeds with 201 and carries
the same user id (`db.nextUserId`, the id Register returned). -/
theorem register_login_roundtrip (secret : String) (db : DB)
    (username email pw : String)
    (hU : username.utf8ByteSize ≤ 20) (hE : email.utf8ByteSize ≤ 50)
    (hFresh : GetUserByEmail db email = none) :
    (handleRegister secret db (some { Username := username, Email := email, Password := pw })).2 =
      Response.jsonUser 201
        { Id := db.nextUserId, Username := username, Email := email, Chats := []
          Token := createJWT secret db.nextUserId } ∧
    handleLogin secret
        (handleRegister secret db (some { Username := username, Email := email, Password := pw })).1
        (some { Email := email, Password := pw }) =
      Response.jsonUser 201
        { Id := db.nextUserId, Username := username, Email := email, Chats := []
          Token := createJWT secret db.nextUserId } := by
  have hreg : handleRegister secret db (some { Username := username, Email := email, Password := pw }) =
      ({ db with
          users := db.users ++ [{ Id := db.nextUserId, Username := username, Email := email
                                  Password := bcryptHash pw, Chats := [] }]
          nextUserId := db.nextUserId + 1 },
       Response.jsonUser 201
         { Id := db.nextUserId, Username := username, Email := email, Chats := []
           Token := createJWT secret db.nextUserId }) := by
    simp only [handleRegister, decodeRegisterRequest]
    rw [if_neg (by
      simp only [Bool.or_eq_true, decide_eq_true_eq, not_or, Nat.not_lt]
      exact ⟨hU, hE⟩)]
    rw [hFresh]
    rfl
  rw [hreg]
  refine ⟨rfl, ?_⟩
  simp only [handleLogin, decodeLoginRequest]
  have hfind : GetUserByEmail
      { db with
        users := db.users ++ [{ Id := db.nextUserId, Username := username, Email := email
                                Password := bcryptHash pw, Chats := [] }]
        nextUserId := db.nextUserId + 1 } email =
      some { Id := db.nextUserId, Username := username, Email := email
             Password := bcryptHash pw, Chats := [] } := by
    unfold GetUserByEmail
    rw [find_append_none _ _ _ hFresh]
    simp
  rw [hfind]
  simp only [User.ValidatePassword, bcryptVerify, beq_self_eq_true, Bool.not_true,
    Bool.false_eq_true, if_false, getChats_nil]
  rfl

def dbC6 : DB := { users := [], chats := [], nextUserId := 1, nextChatId := 1 }

theorem register_login_roundtrip_witness :
    ("alice".utf8ByteSize ≤ 20 ∧ "a@x.com".utf8ByteSize ≤ 50 ∧
      GetUserByEmail dbC6 "a@x.com" = none) ∧
    ((handleRegister "s" dbC6 (some { Username := "alice", Email := "a@x.com", Password := "pw1" })).2 =
      Response.jsonUser 201
        { Id := dbC6.nextUserId, Username := "alice", Email := "a@x.com", Chats := []
          Token := createJWT "s" dbC6.nextUserId } ∧
    handleLogin "s"
        (handleRegister "s" dbC6 (some { Username := "alice", Email := "a@x.com", Password := "pw1" })).1
        (some { Email := "a@x.com", Password := "pw1" }) =
      Response.jsonUser 201
        { Id := dbC6.nextUserId, Username := "alice", Email := "a@x.com", Chats := []
          Token := createJWT "s" dbC6.nextUserId }) :=
  ⟨⟨by decide, by decide, by decide⟩,
   register_login_roundtrip "s" dbC6 "alice" "a@x.com" "pw1"
     (by decide) (by decide) (by decide)⟩

end GoChat

namespace GoChat

theorem rowsAgree_intro (db : DB) (uid cid : Int) (u : User) (c : ChatRow)
    (hu : GetUserById db uid = some u) (hc : findChatRow db cid = some c)
    (h : u.Chats.contains cid = c.users.contains uid) :
    rowsAgree db uid cid = true := by
  have h2 : (u.Chats.contains cid == c.users.contains uid) = true := by
    rw [h, beq_self_eq_true]
  unfold rowsAgree
  rw [hu, hc]
  exact h2

theorem joinChat_decode_eq (db : DB) (user : User) (body : Option JoinChatRequest) :
    handleJoinChat db user body = handleJoinChat db user (some (decodeJoinChatRequest body)) := by
  cases body <;> rfl

theorem joinChat_nochat_state (db : DB) (user : User) (req : JoinChatRequest)
    (hrow : findChatRow db req.Id = none) :
    handleJoinChat db user (some req) = (db, Response.error 404 "error: page not found") := by
  simp only [handleJoinChat, decodeJoinChatRequest, GetChatById, hrow, Option.map_none']

theorem joinChat_badpw_state (db : DB) (user : User) (req : JoinChatRequest) (row : ChatRow)
    (hrow : findChatRow db req.Id = some row)
    (hpw : bcryptVerify row.password req.Password = false) :
    handleJoinChat db user (some req) = (db, Response.error 401 "error: not authorized") := by
  simp only [handleJoinChat, decodeJoinChatRequest, GetChatById, hrow, Option.map_some']
  simp [Chat.ValidatePassword, hpw]

theorem joinChat_member_state (db : DB) (user : User) (req : JoinChatRequest) (row : ChatRow)
    (hrow : findChatRow db req.Id = some row)
    (hpw : bcryptVerify row.password req.Password = true)
    (hmem : user.Chats.contains req.Id = true) :
    handleJoinChat db user (some req) = (db, Response.emptyOk) := by
  simp only [handleJoinChat, decodeJoinChatRequest, GetChatById, hrow, Option.map_some']
  simp [Chat.ValidatePassword, hpw, (contains_iff _ _).mp hmem]

theorem joinChat_fresh_state (db : DB) (user : User) (req : JoinChatRequest) (row : ChatRow)
    (hrow : findChatRow db req.Id = some row)
    (hpw : bcryptVerify row.password req.Password = true)
    (hmem : user.Chats.contains req.Id = false) :
    handleJoinChat db user (some req) =
      (UpdateUser
        (UpdateChat db
          { Id := row.id, Password := row.password, Messages := []
            Users := GetAuthors db row.users ++ [{ Id := user.Id, Username := user.Username }] })
        { user with Chats := user.Chats ++ [row.id] },
       Response.jsonChat 200
         { Id := row.id, Messages := []
           Users := GetAuthors db row.users ++ [{ Id := user.Id, Username := user.Username }] }) := by
  simp only [handleJoinChat, decodeJoinChatRequest, GetChatById, hrow, Option.map_some']
  simp [Chat.ValidatePassword, hpw, (contains_eq_false_iff _ _).mp hmem, Chat.ToJSON]

theorem joinChat_fresh_rows (db : DB) (user : User) (req : JoinChatRequest) (row : ChatRow)
    (hWF : WellFormedDB db)
    (hUser : GetUserById db user.Id = some user)
    (hrow : findChatRow db req.Id = some row)
    (hpw : bcryptVerify row.password req.Password = true)
    (hmem : user.Chats.contains req.Id = false) :
    GetUserById (handleJoinChat db user (some req)).1 user.Id =
      some { user with Chats := user.Chats ++ [row.id] } ∧
    findChatRow (handleJoinChat db user (some req)).1 req.Id =
      some { row with messages := [], users := row.users ++ [user.Id] } := by
  obtain ⟨hNU, hNC, hUlt, hClt, hUsr, hCh, hAg⟩ := hWF
  have hmemrow : row ∈ db.chats := List.mem_of_find?_eq_some hrow
  have hids : (GetAuthors db row.users).map AuthorJSON.Id = row.users :=
    getAuthors_ids db row.users (hCh row hmemrow).1 hNU (hCh row hmemrow).2
  rw [joinChat_fresh_state db user req row hrow hpw hmem]
  constructor
  · dsimp only
    rw [GetUserById_UpdateUser, GetUserById_UpdateChat, hUser, Option.map_some']
    simp
  · dsimp only
    rw [findChatRow_UpdateUser, findChatRow_UpdateChat, hrow, Option.map_some']
    simp [hids]

theorem createChat_state (db : DB) (user : User) (cbody : Option CreateChatRequest) :
    handleCreateChat db user cbody =
      (UpdateUser
        { db with
          chats := db.chats ++
            [{ id := db.nextChatId
               password := bcryptHash (decodeCreateChatRequest cbody).Password
               messages := [], users := [user.Id] }]
          nextChatId := db.nextChatId + 1 }
        { user with Chats := user.Chats ++ [db.nextChatId] },
       Response.jsonChat 201
         { Id := db.nextChatId, Messages := []
           Users := [{ Id := user.Id, Username := user.Username }] }) := rfl

theorem createChat_rows (db : DB) (user : User) (cbody : Option CreateChatRequest)
    (hWF : WellFormedDB db)
    (hUser : GetUserById db user.Id = some user) :
    GetUserById (handleCreateChat db user cbody).1 user.Id =
      some { user with Chats := user.Chats ++ [db.nextChatId] } ∧
    findChatRow (handleCreateChat db user cbody).1 db.nextChatId =
      some { id := db.nextChatId
             password := bcryptHash (decodeCreateChatRequest cbody).Password
             messages := [], users := [user.Id] } := by
  obtain ⟨hNU, hNC, hUlt, hClt, hUsr, hCh, hAg⟩ := hWF
  have hU2 : db.users.find? (fun u => u.Id == user.Id) = some user := hUser
  rw [createChat_state]
  constructor
  · dsimp only
    rw [GetUserById_UpdateUser]
    unfold GetUserById
    dsimp only
    rw [hU2, Option.map_some']
    simp
  · dsimp only
    rw [findChatRow_UpdateUser]
    unfold findChatRow
    dsimp only
    rw [find_append_none _ _ _ (List.find?_eq_none.mpr (fun c hc hbeq => by
      have hlt := hClt c hc
      rw [beq_iff_eq] at hbeq
      omega))]
    simp

theorem leaveChat_member_state (db : DB) (user : User) (s : String) (id : Int) (row : ChatRow)
    (hid : getChatId s = some id)
    (hrow : findChatRow db id = some row)
    (hmem : user.Chats.contains id = true) :
    handleLeaveChat db user s =
      (UpdateUser
        (UpdateChat db
          { Id := row.id, Password := row.password, Messages := []
            Users := removeFirstAuthor user.Id (GetAuthors db row.users) })
        { user with Chats := removeFirstId id user.Chats },
       Response.jsonString 200 "chat deleted") := by
  simp only [handleLeaveChat, hid, GetChatById, hrow, Option.map_some']
  simp [(contains_iff _ _).mp hmem]

theorem leaveChat_member_rows (db : DB) (user : User) (s : String) (id : Int) (row : ChatRow)
    (hWF : WellFormedDB db)
    (hUser : GetUserById db user.Id = some user)
    (hid : getChatId s = some id)
    (hrow : findChatRow db id = some row)
    (hmem : user.Chats.contains id = true) :
    GetUserById (handleLeaveChat db user s).1 user.Id =
      some { user with Chats := removeFirstId id user.Chats } ∧
    findChatRow (handleLeaveChat db user s).1 id =
      some { row with messages := [], users := removeFirstId user.Id row.users } := by
  obtain ⟨hNU, hNC, hUlt, hClt, hUsr, hCh, hAg⟩ := hWF
  have hmemrow : row ∈ db.chats := List.mem_of_find?_eq_some hrow
  have hids : (GetAuthors db row.users).map AuthorJSON.Id = row.users :=
    getAuthors_ids db row.users (hCh row hmemrow).1 hNU (hCh row hmemrow).2
  rw [leaveChat_member_state db user s id row hid hrow hmem]
  constructor
  · dsimp only
    rw [GetUserById_UpdateUser, GetUserById_UpdateChat, hUser, Option.map_some']
    simp
  · dsimp only
    rw [findChatRow_UpdateUser, findChatRow_UpdateChat, hrow, Option.map_some']
    simp [removeFirstAuthor_map_Id, hids]

end GoChat

namespace GoChat

/-- Claim C1: starting from a consistent store (unique keys, duplicate-
free membership columns referencing existing rows, and agreeing
bidirectional membership) with the context user freshly loaded from the
store, each of CreateChat, JoinChat (whenever it responds successfully,
with the chat body or the empty already-member response) and LeaveChat
(whenever it responds successfully) leaves the requester's user row and
the affected chat row with agreeing membership: the chat id occurs in
user.Chats exactly when the user id occurs among the chat's member
ids. -/
theorem membership_agreement_after_ops (db : DB) (user : User)
    (cbody : Option CreateChatRequest) (jbody : Option JoinChatRequest) (s : String)
    (hWF : WellFormedDB db)
    (hUser : GetUserById db user.Id = some user) :
    rowsAgree (handleCreateChat db user cbody).1 user.Id db.nextChatId = true ∧
    (isJoinSuccess (handleJoinChat db user jbody).2 = true →
      rowsAgree (handleJoinChat db user jbody).1 user.Id (decodeJoinChatRequest jbody).Id = true) ∧
    ((handleLeaveChat db user s).2 = Response.jsonString 200 "chat deleted" →
      rowsAgree (handleLeaveChat db user s).1 user.Id ((getChatId s).getD 0) = true) := by
  refine ⟨?_, ?_, ?_⟩
  · obtain ⟨hru, hrc⟩ := createChat_rows db user cbody hWF hUser
    refine rowsAgree_intro _ _ _ _ _ hru hrc ?_
    dsimp only
    rw [contains_append_self]
    rw [show ([user.Id].contains user.Id) = true from
      (contains_iff _ _).mpr (List.mem_singleton_self user.Id)]
  · intro hsucc
    rw [joinChat_decode_eq db user jbody] at hsucc ⊢
    cases hrow : findChatRow db (decodeJoinChatRequest jbody).Id with
    | none =>
      rw [joinChat_nochat_state db user _ hrow] at hsucc
      have h9 : isJoinSuccess (Response.error 404 "error: page not found") = true := hsucc
      exact absurd h9 (by decide)
    | some row =>
      have hrid : row.id = (decodeJoinChatRequest jbody).Id := by
        simpa using List.find?_some hrow
      cases hpw : bcryptVerify row.password (decodeJoinChatRequest jbody).Password with
      | false =>
        rw [joinChat_badpw_state db user _ row hrow hpw] at hsucc
        have h9 : isJoinSuccess (Response.error 401 "error: not authorized") = true := hsucc
        exact absurd h9 (by decide)
      | true =>
        cases hmem : user.Chats.contains (decodeJoinChatRequest jbody).Id with
        | true =>
          rw [joinChat_member_state db user _ row hrow hpw hmem]
          refine rowsAgree_intro _ _ _ _ _ hUser hrow ?_
          rw [hmem]
          obtain ⟨_, _, _, _, _, _, hAg⟩ := hWF
          have hin : user.Id ∈ row.users := by
            apply (hAg user (List.mem_of_find?_eq_some hUser) row (List.mem_of_find?_eq_some hrow)).mp
            rw [hrid]
            exact (contains_iff _ _).mp hmem
          rw [(contains_iff _ _).mpr hin]
        | false =>
          obtain ⟨hru, hrc⟩ := joinChat_fresh_rows db user _ row hWF hUser hrow hpw hmem
          refine rowsAgree_intro _ _ _ _ _ hru hrc ?_
          dsimp only
          rw [hrid, contains_append_self, contains_append_self]
  · intro hsucc
    cases hid : getChatId s with
    | none =>
      rw [show handleLeaveChat db user s = (db, Response.error 404 "error: page not found") from by
        simp [handleLeaveChat, hid]] at hsucc
      have h9 : Response.error 404 "error: page not found" = Response.jsonString 200 "chat deleted" := hsucc
      exact absurd h9 (by decide)
    | some id2 =>
      cases hrow : findChatRow db id2 with
      | none =>
        rw [show handleLeaveChat db user s = (db, Response.error 404 "error: page not found") from by
          simp [handleLeaveChat, hid, GetChatById, hrow]] at hsucc
        have h9 : Response.error 404 "error: page not found" = Response.jsonString 200 "chat deleted" := hsucc
        exact absurd h9 (by decide)
      | some row =>
        cases hmem : user.Chats.contains id2 with
        | false =>
          rw [show handleLeaveChat db user s = (db, Response.error 404 "error: page not found") from by
            simp [handleLeaveChat, hid, GetChatById, hrow,
              (contains_eq_false_iff _ _).mp hmem]] at hsucc
          have h9 : Response.error 404 "error: page not found" = Response.jsonString 200 "chat deleted" := hsucc
          exact absurd h9 (by decide)
        | true =>
          obtain ⟨hru, hrc⟩ := leaveChat_member_rows db user s id2 row hWF hUser hid hrow hmem
          simp only [Option.getD_some]
          refine rowsAgree_intro _ _ _ _ _ hru hrc ?_
          dsimp only
          obtain ⟨_, _, _, _, hUsr, hCh, _⟩ := hWF
          rw [(contains_eq_false_iff _ _).mpr
            (not_mem_removeFirstId _ _ (hUsr user (List.mem_of_find?_eq_some hUser)).1)]
          rw [(contains_eq_false_iff _ _).mpr
            (not_mem_removeFirstId _ _ (hCh row (List.mem_of_find?_eq_some hrow)).1)]

instance wellFormedDB_decidable (db : DB) : Decidable (WellFormedDB db) := by
  unfold WellFormedDB
  infer_instance

def userC1 : User :=
  { Id := 1, Username := "ann", Email := "a@x.com", Password := bcryptHash "u", Chats := [1] }

def dbC1 : DB :=
  { users := [userC1]
    chats := [{ id := 1, password := bcryptHash "pw", messages := [], users := [1] }]
    nextUserId := 2, nextChatId := 2 }

theorem membership_agreement_after_ops_witness :
    (WellFormedDB dbC1 ∧ GetUserById dbC1 userC1.Id = some userC1) ∧
    rowsAgree (handleCreateChat dbC1 userC1 (some { Password := "x" })).1 userC1.Id dbC1.nextChatId = true ∧
    rowsAgree (handleJoinChat dbC1 userC1 (some { Id := 1, Password := "pw" })).1 userC1.Id 1 = true ∧
    rowsAgree (handleLeaveChat dbC1 userC1 "1").1 userC1.Id 1 = true :=
  ⟨⟨by decide, by decide⟩,
   (membership_agreement_after_ops dbC1 userC1 (some { Password := "x" })
      (some { Id := 1, Password := "pw" }) "1" (by decide) (by decide)).1,
   (membership_agreement_after_ops dbC1 userC1 (some { Password := "x" })
      (some { Id := 1, Password := "pw" }) "1" (by decide) (by decide)).2.1 (by decide),
   (membership_agreement_after_ops dbC1 userC1 (some { Password := "x" })
      (some { Id := 1, Password := "pw" }) "1" (by decide) (by decide)).2.2 (by decide)⟩

end GoChat

namespace GoChat

def userC4 : User :=
  { Id := 1, Username := "ann", Email := "a@x.com", Password := bcryptHash "u", Chats := [1] }

def dbC4 : DB :=
  { users := [userC4]
    chats := [{ id := 1, password := bcryptHash "pw", messages := [], users := [1] }]
    nextUserId := 2, nextChatId := 2 }

/-- Claim C4 (counterexample): user 1 is already a member of chat 1 and
re-joins with the correct password.  The call is a no-op on the store,
but the handler returns from the already-member branch without writing
anything, so the response is the implicit empty 200 body — it does not
return the current state of the chat, contradicting the claim's
"returns the current state of the chat". -/
theorem joinChat_rejoin_returns_empty_response :
    handleJoinChat dbC4 userC4 (some { Id := 1, Password := "pw" }) = (dbC4, Response.emptyOk) ∧
    isChat200 (handleJoinChat dbC4 userC4 (some { Id := 1, Password := "pw" })).2 = false :=
  ⟨by decide, by decide⟩

/-- Claim C4 (amended): from a consistent store with the context user
freshly loaded and not yet a member, JoinChat with the correct password
answers 200 with the chat body and leaves exactly one membership entry
on each side — count 1 of the chat id in the user's Chats column and
count 1 of the user id in the chat's users column; an immediately
repeated JoinChat by the same user, reloaded from the store as the
middleware does, is a no-op: the store is returned unchanged and the
response is the implicit empty 200 with no body (not the chat state). -/
theorem joinChat_idempotent_single_entry (db : DB) (user : User)
    (req : JoinChatRequest) (row : ChatRow)
    (hWF : WellFormedDB db)
    (hUser : GetUserById db user.Id = some user)
    (hrow : findChatRow db req.Id = some row)
    (hpw : bcryptVerify row.password req.Password = true)
    (hmem : user.Chats.contains req.Id = false) :
    isChat200 (handleJoinChat db user (some req)).2 = true ∧
    memberCounts (handleJoinChat db user (some req)).1 user.Id req.Id = (1, 1) ∧
    secondJoinNoop (handleJoinChat db user (some req)).1 user.Id (some req) = true := by
  obtain ⟨hru, hrc⟩ := joinChat_fresh_rows db user req row hWF hUser hrow hpw hmem
  have hrid : row.id = req.Id := by
    simpa using List.find?_some hrow
  have hnmU : req.Id ∉ user.Chats := (contains_eq_false_iff _ _).mp hmem
  have hnmC : user.Id ∉ row.users := by
    obtain ⟨_, _, _, _, _, _, hAg⟩ := hWF
    intro hin
    apply hnmU
    rw [← hrid]
    exact (hAg user (List.mem_of_find?_eq_some hUser) row (List.mem_of_find?_eq_some hrow)).mpr hin
  refine ⟨?_, ?_, ?_⟩
  · rw [joinChat_fresh_state db user req row hrow hpw hmem]
    rfl
  · unfold memberCounts
    rw [hru, hrc]
    simp only [Option.map_some', Option.getD_some]
    rw [hrid]
    simp [List.count_append, List.count_eq_zero.mpr hnmU, List.count_eq_zero.mpr hnmC]
  · have hnoop : handleJoinChat (handleJoinChat db user (some req)).1
        { user with Chats := user.Chats ++ [row.id] } (some req) =
        ((handleJoinChat db user (some req)).1, Response.emptyOk) := by
      refine joinChat_member_state _ _ _
        { row with messages := [], users := row.users ++ [user.Id] } hrc hpw ?_
      dsimp only
      rw [hrid, contains_append_self]
    unfold secondJoinNoop
    rw [hru]
    exact decide_eq_true hnoop

def userC4w : User :=
  { Id := 1, Username := "ann", Email := "a@x.com", Password := "h", Chats := [] }

def rowC4w : ChatRow :=
  { id := 1, password := bcryptHash "pw", messages := [], users := [] }

def dbC4w : DB :=
  { users := [userC4w], chats := [rowC4w], nextUserId := 2, nextChatId := 2 }

theorem joinChat_idempotent_single_entry_witness :
    (WellFormedDB dbC4w ∧ GetUserById dbC4w userC4w.Id = some userC4w ∧
     findChatRow dbC4w 1 = some rowC4w ∧
     bcryptVerify rowC4w.password "pw" = true ∧
     userC4w.Chats.contains 1 = false) ∧
    (isChat200 (handleJoinChat dbC4w userC4w (some { Id := 1, Password := "pw" })).2 = true ∧
     memberCounts (handleJoinChat dbC4w userC4w (some { Id := 1, Password := "pw" })).1
       userC4w.Id 1 = (1, 1) ∧
     secondJoinNoop (handleJoinChat dbC4w userC4w (some { Id := 1, Password := "pw" })).1
       userC4w.Id (some { Id := 1, Password := "pw" }) = true) :=
  ⟨⟨by decide, by decide, by decide, by decide, by decide⟩,
   joinChat_idempotent_single_entry dbC4w userC4w { Id := 1, Password := "pw" } rowC4w
     (by decide) (by decide) (by decide) (by decide) (by decide)⟩

/-- Claim C5: whenever the requester is not currently a member of the
chat named by the route variable — the id is malformed, the chat row is
absent, or the id does not occur in requester.Chats — LeaveChat answers
the one uniform 404 page-not-found response and returns the store
unchanged; when the requester is a member, it answers 200, removes the
first occurrence of the requester from the chat's users column and of
the chat id from the requester's Chats column, persists both rows, and
(in a consistent store) neither membership entry remains. -/
theorem leaveChat_nonmember_uniform_notfound (db : DB) (user : User) (s : String)
    (id : Int) (row : ChatRow)
    (hWF : WellFormedDB db)
    (hUser : GetUserById db user.Id = some user) :
    (leaveNotMember db user s = true →
      handleLeaveChat db user s = (db, Response.error 404 "error: page not found")) ∧
    (getChatId s = some id → findChatRow db id = some row →
      user.Chats.contains id = true →
      ((handleLeaveChat db user s).2 = Response.jsonString 200 "chat deleted" ∧
       GetUserById (handleLeaveChat db user s).1 user.Id =
         some { user with Chats := removeFirstId id user.Chats } ∧
       findChatRow (handleLeaveChat db user s).1 id =
         some { row with messages := [], users := removeFirstId user.Id row.users } ∧
       id ∉ removeFirstId id user.Chats ∧
       user.Id ∉ removeFirstId user.Id row.users)) := by
  constructor
  · intro h
    unfold leaveNotMember at h
    cases hid : getChatId s with
    | none => simp [handleLeaveChat, hid]
    | some i =>
      rw [hid] at h
      have h2 : (match findChatRow db i with
        | none => true
        | some _ => !(user.Chats.contains i)) = true := h
      cases hrow : findChatRow db i with
      | none => simp [handleLeaveChat, hid, GetChatById, hrow]
      | some r =>
        rw [hrow] at h2
        have h3 : (!(user.Chats.contains i)) = true := h2
        have hcontains : user.Chats.contains i = false := by
          cases hcc : user.Chats.contains i with
          | false => rfl
          | true => rw [hcc] at h3; exact absurd h3 (by decide)
        simp [handleLeaveChat, hid, GetChatById, hrow,
          (contains_eq_false_iff _ _).mp hcontains]
  · intro h1 h2 h3
    obtain ⟨hru, hrc⟩ := leaveChat_member_rows db user s id row hWF hUser h1 h2 h3
    refine ⟨?_, hru, hrc, ?_, ?_⟩
    · rw [leaveChat_member_state db user s id row h1 h2 h3]
    · obtain ⟨_, _, _, _, hUsr, _, _⟩ := hWF
      exact not_mem_removeFirstId id user.Chats
        (hUsr user (List.mem_of_find?_eq_some hUser)).1
    · obtain ⟨_, _, _, _, _, hCh, _⟩ := hWF
      exact not_mem_removeFirstId user.Id row.users
        (hCh row (List.mem_of_find?_eq_some h2)).1

def userC5 : User :=
  { Id := 1, Username := "ann", Email := "a@x.com", Password := bcryptHash "u", Chats := [1] }

def rowC5 : ChatRow :=
  { id := 1, password := bcryptHash "pw", messages := [], users := [1] }

def dbC5 : DB :=
  { users := [userC5], chats := [rowC5], nextUserId := 2, nextChatId := 2 }

theorem leaveChat_nonmember_uniform_notfound_witness :
    (WellFormedDB dbC5 ∧ GetUserById dbC5 userC5.Id = some userC5) ∧
    (leaveNotMember dbC5 userC5 "abc" = true ∧
     handleLeaveChat dbC5 userC5 "abc" = (dbC5, Response.error 404 "error: page not found")) ∧
    (getChatId "1" = some 1 ∧ findChatRow dbC5 1 = some rowC5 ∧
     userC5.Chats.contains 1 = true ∧
     ((handleLeaveChat dbC5 userC5 "1").2 = Response.jsonString 200 "chat deleted" ∧
      GetUserById (handleLeaveChat dbC5 userC5 "1").1 userC5.Id =
        some { userC5 with Chats := removeFirstId 1 userC5.Chats } ∧
      findChatRow (handleLeaveChat dbC5 userC5 "1").1 1 =
        some { rowC5 with messages := [], users := removeFirstId userC5.Id rowC5.users } ∧
      (1 : Int) ∉ removeFirstId 1 userC5.Chats ∧
      userC5.Id ∉ removeFirstId userC5.Id rowC5.users)) :=
  ⟨⟨by decide, by decide⟩,
   ⟨by decide,
    (leaveChat_nonmember_uniform_notfound dbC5 userC5 "abc" 0 rowC5
      (by decide) (by decide)).1 (by decide)⟩,
   ⟨by decide, by decide, by decide,
    (leaveChat_nonmember_uniform_notfound dbC5 userC5 "1" 1 rowC5
      (by decide) (by decide)).2 (by decide) (by decide) (by decide)⟩⟩

end GoChat
